import Mathlib

/-!
Verification development for the webpage phishing-detection engine
(`page_phishing.py`, `page_api.py`).

The Python code is shallowly embedded: machine floats are modelled as
exact rationals (all weights and thresholds in the source are short
decimal literals whose float arithmetic agrees with exact arithmetic on
the claims below), Python lists become Lean lists, dicts with string
keys become association lists in insertion order, and BeautifulSoup
document trees become a small HTML-tree inductive.  String primitives
(`in`, `lower`, slicing, `find`, `rfind`, `strip`, `split`, prefix and
suffix tests) are re-implemented over `String.data` so that every
definition evaluates inside Lean.
-/

set_option maxRecDepth 4096

/-! ## String utilities (models of the Python `str` primitives used) -/

/-- Model of the Python substring test `sub in s`. -/
def listIsInfix (sub l : List Char) : Bool :=
  sub.isPrefixOf l ||
    match l with
    | [] => false
    | _ :: t => listIsInfix sub t

/-- Model of Python `sub in s` on `String`. -/
def containsSub (s sub : String) : Bool := listIsInfix sub.data s.data

/-- Model of Python `s.lower()` (the source only exercises ASCII data). -/
def pyLower (s : String) : String := String.mk (s.data.map Char.toLower)

/-- Model of Python `s.startswith(p)`. -/
def pyStartsWith (s p : String) : Bool := p.data.isPrefixOf s.data

/-- Model of Python `s.endswith(p)`. -/
def pyEndsWith (s p : String) : Bool := p.data.isSuffixOf s.data

/-- Model of Python `s[n:]` for a non-negative `n`. -/
def pyDropStr (s : String) (n : ℕ) : String := String.mk (s.data.drop n)

/-- Model of Python `s[:n]` for a non-negative `n`. -/
def pyTakeStr (s : String) (n : ℕ) : String := String.mk (s.data.take n)

/-- Whitespace characters recognised by the model of Python `str.strip`. -/
def isPyWs (c : Char) : Bool :=
  c = ' ' || c = '\t' || c = '\n' || c = '\r' || c = Char.ofNat 11 || c = Char.ofNat 12

/-- Model of Python `s.strip()`. -/
def pyStrip (s : String) : String :=
  String.mk (((s.data.dropWhile isPyWs).reverse.dropWhile isPyWs).reverse)

/-- Model of Python `s.split(sep)` for a one-character separator. -/
def pySplitChar (s : String) (sep : Char) : List String :=
  go s.data [] |>.map String.mk
where
  go : List Char → List Char → List (List Char)
    | [], acc => [acc.reverse]
    | c :: t, acc => if c = sep then acc.reverse :: go t [] else go t (c :: acc)

/-- Model of Python `s.find(c)` for a single character: first index or `-1`. -/
def pyFindChar (s : String) (c : Char) : ℤ :=
  match s.data.findIdx? (fun d => d = c) with
  | some i => (i : ℤ)
  | none => -1

/-- Model of Python `s.rfind(c)` for a single character: last index or `-1`. -/
def pyRFindChar (s : String) (c : Char) : ℤ :=
  match s.data.reverse.findIdx? (fun d => d = c) with
  | some i => (s.data.length : ℤ) - 1 - (i : ℤ)
  | none => -1

/-- Model of the Python slice `s[a:b]` for `0 ≤ a ≤ b` (the only way the
source uses slices with two computed endpoints). -/
def pySliceStr (s : String) (a b : ℤ) : String :=
  String.mk ((s.data.take b.toNat).drop a.toNat)

/-- Order-preserving deduplication keeping the first occurrence of each
element; model of Python `list(dict.fromkeys(l))` (and used for
`list(set(l))`, whose enumeration order Python does not fix). -/
def dedupFirstAux (seen : List String) : List String → List String
  | [] => []
  | x :: xs => if x ∈ seen then dedupFirstAux seen xs else x :: dedupFirstAux (x :: seen) xs

def dedupFirst (l : List String) : List String := dedupFirstAux [] l

/-! ## Static configuration of `WebpagePhishingDetector.__init__` -/

/-- The list `self.suspicious_keywords`. -/
def suspicious_keywords_vocab : List String :=
  ["urgent", "verify", "suspend", "update", "confirm", "security alert",
   "account blocked", "click here", "limited time", "act now", "winner",
   "congratulations", "free money", "inheritance", "lottery", "prize",
   "banking alert", "paypal", "amazon security", "microsoft support",
   "apple id", "google account", "facebook security", "twitter verification",
   "suspended", "expired", "immediate action", "verify identity",
   "claim now", "tax refund", "virus detected", "system infected"]

/-- The list `self.social_engineering_phrases`. -/
def social_engineering_vocab : List String :=
  ["verify your account", "confirm your identity", "update payment method",
   "suspicious activity", "unusual activity", "security breach",
   "account compromised", "click to verify", "avoid account suspension",
   "immediate response required", "act within 24 hours"]

/-- The list `self.urgency_words`. -/
def urgency_words_vocab : List String :=
  ["urgent", "immediately", "asap", "expire", "deadline", "last chance",
   "limited time", "hurry", "quick", "fast", "now or never", "today only"]

/-- The set `self.trusted_domains` (a Python set, modelled as a list; only
order-independent operations are applied to it). -/
def trusted_domains_config : List String :=
  ["github.com", "youtube.com", "google.com", "gmail.com",
   "microsoft.com", "apple.com", "facebook.com", "twitter.com",
   "linkedin.com", "stackoverflow.com"]

/-- The set `self.suspicious_tlds`. -/
def suspicious_tlds_config : List String :=
  ["xyz", "top", "tk", "gq", "cf", "ru", "cn", "bond"]

/-- The list `suspicious_js_patterns` from `extract_webpage_features`. -/
def suspicious_js_patterns : List String :=
  ["eval(", "document.write", "unescape", "fromcharcode",
   "atob(", "btoa(", "innerhtml", "location.href",
   "window.location", "document.cookie", "base64"]

/-! ## Data model -/

/-- The `WebpageFeatures` dataclass.  `title` is `Option String` because
`soup.title.string if soup.title else ""` stores Python `None` when the
title tag has no single string child. -/
structure WebpageFeatures where
  title : Option String
  forms_count : ℕ
  input_fields : List String
  suspicious_keywords : List String
  popup_indicators : ℕ
  ads_count : ℕ
  suspicious_elements : List String
  text_content : String
  meta_description : String
  javascript_suspicious : Bool
  iframe_count : ℕ
  hidden_elements : ℕ
  urgency_indicators : ℕ
  social_engineering_signals : List String
  form_actions : List String
  suspicious_scripts : List String

/-- Result dict of `get_domain_reputation`. -/
structure DomainReputation where
  domain : String
  tld : String
  reputation_score : ℚ
  reputation_reason : List String

/-- Result dict of `calculate_content_risk_score`; the `risk_factors`
dict is an association list in insertion order. -/
structure ContentAnalysis where
  total_risk_score : ℚ
  risk_factors : List (String × ℚ)

/-! ## Domain Reputation Evaluator (`get_domain_reputation`, lines 83-111) -/

/-- Characters allowed in a URL scheme by `urllib.parse`. -/
def isSchemeChar (c : Char) : Bool :=
  c.isAlpha || c.isDigit || c = '+' || c = '-' || c = '.'

/-- Strips a leading `scheme:` from a URL, as `urllib.parse.urlsplit`
does (the scheme must start with a letter and use only scheme characters). -/
def afterScheme (url : String) : String :=
  match url.data.findIdx? (fun c => c = ':') with
  | some k =>
      let pre := url.data.take k
      if 0 < k ∧ (pre.headD ' ').isAlpha ∧ pre.all isSchemeChar then
        String.mk (url.data.drop (k + 1))
      else url
  | none => url

/-- Model of `urllib.parse.urlparse(url).netloc`: present only when the
remainder after the scheme starts with `//`, and delimited by the first
`/`, `?` or `#`. -/
def urlNetloc (url : String) : String :=
  let rest := afterScheme url
  if pyStartsWith rest "//" then
    String.mk ((rest.data.drop 2).takeWhile (fun c => c ≠ '/' && c ≠ '?' && c ≠ '#'))
  else ""

/-- The host normalisation at the top of `get_domain_reputation`:
`domain = parsed.netloc.lower()`, then `www.` stripped. -/
def normalizeHost (url : String) : String :=
  let domain := pyLower (urlNetloc url)
  if pyStartsWith domain "www." then pyDropStr domain 4 else domain

/-- The expression `domain.split(".")[-1]`. -/
def hostTld (domain : String) : String := (pySplitChar domain '.').getLastD ""

/-- The method `get_domain_reputation`, parameterised by the two configured sets
(the instance attributes `self.trusted_domains` / `self.suspicious_tlds`;
§6 of the design treats them as the static configuration surface). -/
def get_domain_reputation (trusted suspicious_tlds : List String) (url : String) :
    DomainReputation :=
  let domain := normalizeHost url
  let reputation_score : ℚ := 0.5
  let reputation_reason : List String := []
  let step1 :=
    if trusted.any (fun td => pyEndsWith domain td) then
      ((0.0 : ℚ), reputation_reason ++ ["trusted_domain"])
    else (reputation_score, reputation_reason)
  let tld := hostTld domain
  let step2 :=
    if tld ∈ suspicious_tlds then ((0.8 : ℚ), step1.2 ++ ["suspicious_tld"])
    else step1
  { domain := domain, tld := tld,
    reputation_score := step2.1, reputation_reason := step2.2 }

/-! ## Heuristic Risk Scorer (`calculate_content_risk_score`, lines 254-327) -/

/-- The `risk_factors` dict built by `calculate_content_risk_score`, as
an insertion-ordered association list of conditional entries. -/
def riskEntries (features : WebpageFeatures) : List (String × ℚ) :=
  (if 0 < features.forms_count then
    [("forms_present", min ((features.forms_count : ℚ) * 0.35) 0.7)] else [])
  ++ (if features.input_fields.filter (fun field => containsSub field "password") ≠ [] then
    [("password_fields", (0.6 : ℚ))] else [])
  ++ (if features.suspicious_keywords ≠ [] then
    [("suspicious_keywords", min ((features.suspicious_keywords.length : ℚ) * 0.15) 0.6)] else [])
  ++ (if features.social_engineering_signals ≠ [] then
    [("social_engineering", min ((features.social_engineering_signals.length : ℚ) * 0.25) 0.7)] else [])
  ++ (if 0 < features.urgency_indicators then
    [("urgency_tactics", min ((features.urgency_indicators : ℚ) * 0.2) 0.5)] else [])
  ++ (if features.javascript_suspicious then
    [("suspicious_javascript", (0.2 : ℚ))] else [])
  ++ (if 0 < features.popup_indicators then
    [("popups", min ((features.popup_indicators : ℚ) * 0.25) 0.5)] else [])
  ++ (if 5 < features.hidden_elements then
    [("hidden_elements", min (((features.hidden_elements : ℚ) - 5) * 0.1) 0.4)] else [])
  ++ (if 0 < features.iframe_count then
    [("iframes", min ((features.iframe_count : ℚ) * 0.1) 0.2)] else [])
  ++ (if 5 < features.ads_count then
    [("excessive_ads", min (((features.ads_count : ℚ) - 5) * 0.06) 0.2)] else [])
  ++ (if features.suspicious_elements ≠ [] then
    [("suspicious_elements", min ((features.suspicious_elements.length : ℚ) * 0.2) 0.6)] else [])

/-- The method `calculate_content_risk_score`: the running total is the sum of the
included factors, clamped by `min(risk_score, 1.0)`. -/
def calculate_content_risk_score (features : WebpageFeatures) : ContentAnalysis :=
  { total_risk_score := min ((riskEntries features).map Prod.snd).sum 1
    risk_factors := riskEntries features }

/-! ## Decision Combiner (steps 5-7 of `detect_webpage_phishing`, lines 448-463) -/

structure CombineOut where
  combined_risk_score : ℚ
  is_phishing : Bool
  confidence : ℚ

/-- Steps 5-7 of `detect_webpage_phishing`: blend the content score with
the model likelihood, adjust by domain reputation, decide, and compute
confidence. -/
def combineDecision (content_score llm_likelihood reputation_score : ℚ) : CombineOut :=
  let llm_score := llm_likelihood / 100
  let combined0 := content_score * 0.50 + llm_score * 0.50
  let combined_score :=
    if reputation_score = 0.0 then min combined0 0.2
    else if 0.8 ≤ reputation_score then min (combined0 + 0.2) 1.0
    else combined0
  { combined_risk_score := combined_score
    is_phishing := decide (0.5 < combined_score)
    confidence := min (|combined_score - 0.5| * 2) 1 * 100 }

/-! ## Helper lemmas -/

/-- Membership in a conditional singleton segment. -/
theorem mem_ite_single {α : Type} {c : Prop} [Decidable c] {x a : α} :
    a ∈ (if c then [x] else []) ↔ c ∧ a = x := by
  split
  · simp_all
  · simp_all

theorem sublist_ite_single {α : Type} {c : Prop} [Decidable c] {x : α} :
    (if c then [x] else []).Sublist [x] := by
  split
  · exact List.Sublist.refl _
  · exact List.nil_sublist _

/-- Every factor value placed in the risk-factor map is strictly positive. -/
theorem riskEntries_pos (f : WebpageFeatures) :
    ∀ p ∈ riskEntries f, 0 < p.2 := by
  intro p hp
  unfold riskEntries at hp
  simp only [List.mem_append, mem_ite_single] at hp
  have natq : ∀ n : ℕ, 0 < n → (0 : ℚ) < n := by
    intro n hn; exact_mod_cast hn
  have subq : ∀ n : ℕ, 5 < n → (0 : ℚ) < (n : ℚ) - 5 := by
    intro n hn
    have : (5 : ℚ) < n := by exact_mod_cast hn
    linarith
  have lenq : ∀ {l : List String}, l ≠ [] → (0 : ℚ) < l.length := by
    intro l hl
    exact natq _ (List.length_pos.mpr hl)
  rcases hp with (((((((((⟨h, rfl⟩ | ⟨h, rfl⟩) | ⟨h, rfl⟩) | ⟨h, rfl⟩) | ⟨h, rfl⟩) |
    ⟨h, rfl⟩) | ⟨h, rfl⟩) | ⟨h, rfl⟩) | ⟨h, rfl⟩) | ⟨h, rfl⟩) | ⟨h, rfl⟩
  · exact lt_min (by have := natq _ h; nlinarith) (by norm_num)
  · norm_num
  · exact lt_min (by have := lenq h; nlinarith) (by norm_num)
  · exact lt_min (by have := lenq h; nlinarith) (by norm_num)
  · exact lt_min (by have := natq _ h; nlinarith) (by norm_num)
  · norm_num
  · exact lt_min (by have := natq _ h; nlinarith) (by norm_num)
  · exact lt_min (by have := subq _ h; nlinarith) (by norm_num)
  · exact lt_min (by have := natq _ h; nlinarith) (by norm_num)
  · exact lt_min (by have := subq _ h; nlinarith) (by norm_num)
  · exact lt_min (by have := lenq h; nlinarith) (by norm_num)

/-! ## Claim C1: trusted-domain cap -/

/-- C1: for every heuristic total and model likelihood, if the domain
reputation score is 0.0 (trusted) then the combined score produced by
the decision combiner is at most 0.2, hence `is_phishing` is false. -/
theorem trusted_cap_c1 (heuristic_total model_likelihood rep : ℚ) (hrep : rep = 0.0) :
    (combineDecision heuristic_total model_likelihood rep).combined_risk_score ≤ 0.2 ∧
    (combineDecision heuristic_total model_likelihood rep).is_phishing = false := by
  subst hrep
  unfold combineDecision
  simp only [if_pos rfl]
  refine ⟨min_le_right _ _, ?_⟩
  have hle : min (heuristic_total * 0.50 + 0.8 / 100 * 0.50) 0.2 ≤ 0.2 := min_le_right _ _
  simp only [decide_eq_false_iff_not, not_lt]
  calc min (heuristic_total * 0.50 + model_likelihood / 100 * 0.50) 0.2
      ≤ 0.2 := min_le_right _ _
    _ ≤ 0.5 := by norm_num

/-- Witness for C1 at a concrete heuristic total and likelihood. -/
theorem trusted_cap_c1_witness :
    (combineDecision 0.9 90 0.0).combined_risk_score ≤ 0.2 ∧
    (combineDecision 0.9 90 0.0).is_phishing = false :=
  trusted_cap_c1 0.9 90 0.0 rfl

/-! ## Claim C2: end-to-end scenario -/

/-- The feature record of the C2 scenario: 3 forms, one password input
descriptor, 4 matched suspicious keywords, no social-engineering
phrases, 0 urgency words, JS flag false, 0 popups, 3 hidden elements,
0 iframes, 0 ads, 1 suspicious-element tag. -/
def c2features : WebpageFeatures :=
  { title := some "Login", forms_count := 3,
    input_fields := ["password:userpass:enter password"],
    suspicious_keywords := ["urgent", "verify", "paypal", "suspended"],
    popup_indicators := 0, ads_count := 0,
    suspicious_elements := ["multiple_forms:3"],
    text_content := "", meta_description := "",
    javascript_suspicious := false, iframe_count := 0,
    hidden_elements := 3, urgency_indicators := 0,
    social_engineering_signals := [], form_actions := [],
    suspicious_scripts := [] }

/-- C2: on that record the heuristic total is clamped to 1.0, and
combining with model likelihood 80 on a neutral-reputation host gives
combined score 0.90, `is_phishing` true and confidence 80. -/
theorem end_to_end_c2 :
    (calculate_content_risk_score c2features).total_risk_score = 1 ∧
    combineDecision (calculate_content_risk_score c2features).total_risk_score 80 0.5 =
      { combined_risk_score := 0.9, is_phishing := true, confidence := 80 } := by
  have htot : (calculate_content_risk_score c2features).total_risk_score = 1 := by
    simp +decide [calculate_content_risk_score, riskEntries, c2features]
    norm_num
  refine ⟨htot, ?_⟩
  rw [htot]
  simp only [combineDecision]
  norm_num
  rw [show |(2:ℚ) / 5| = 2 / 5 from abs_of_nonneg (by norm_num)]
  rw [min_eq_left (by norm_num)]
  norm_num

/-! ## Claim C3: heuristic total is bounded in [0,1]; all-zero record -/

/-- A feature record with all counts zero, all flags false and all
lists empty. -/
def zeroFeatures : WebpageFeatures :=
  { title := some "", forms_count := 0, input_fields := [],
    suspicious_keywords := [], popup_indicators := 0, ads_count := 0,
    suspicious_elements := [], text_content := "", meta_description := "",
    javascript_suspicious := false, iframe_count := 0, hidden_elements := 0,
    urgency_indicators := 0, social_engineering_signals := [],
    form_actions := [], suspicious_scripts := [] }

/-- C3: for every feature record the heuristic total lies in [0,1]; on
the all-zero record the total is 0 and the factor map is empty. -/
theorem heuristic_bounds_c3 :
    (∀ f : WebpageFeatures,
      0 ≤ (calculate_content_risk_score f).total_risk_score ∧
      (calculate_content_risk_score f).total_risk_score ≤ 1) ∧
    (calculate_content_risk_score zeroFeatures).total_risk_score = 0 ∧
    (calculate_content_risk_score zeroFeatures).risk_factors = [] := by
  refine ⟨fun f => ⟨?_, min_le_right _ _⟩, ?_, ?_⟩
  · refine le_min ?_ (by norm_num)
    refine List.sum_nonneg ?_
    intro x hx
    obtain ⟨p, hp, rfl⟩ := List.mem_map.mp hx
    exact le_of_lt (riskEntries_pos f p hp)
  · simp +decide [calculate_content_risk_score, riskEntries, zeroFeatures]
  · rfl

/-! ## Claim C5: domain reputation evaluator -/

/-- C5: concrete reputation results for a trusted domain, a suspicious
TLD and an unknown host, plus the overwrite rule: whenever both the
trusted-suffix check and the suspicious-TLD check fire (for whatever
configured sets), the suspicious-TLD branch, evaluated second, forces
the score to 0.8. -/
theorem domain_reputation_c5 :
    ((get_domain_reputation trusted_domains_config suspicious_tlds_config
        "https://github.com/x").reputation_score = 0.0 ∧
     (get_domain_reputation trusted_domains_config suspicious_tlds_config
        "https://github.com/x").reputation_reason = ["trusted_domain"]) ∧
    ((get_domain_reputation trusted_domains_config suspicious_tlds_config
        "http://free-prize.xyz").reputation_score = 0.8 ∧
     (get_domain_reputation trusted_domains_config suspicious_tlds_config
        "http://free-prize.xyz").reputation_reason = ["suspicious_tld"]) ∧
    ((get_domain_reputation trusted_domains_config suspicious_tlds_config
        "http://unknown-site.io").reputation_score = 0.5 ∧
     (get_domain_reputation trusted_domains_config suspicious_tlds_config
        "http://unknown-site.io").reputation_reason = []) ∧
    ∀ (trusted tlds : List String) (url : String),
      trusted.any (fun td => pyEndsWith (normalizeHost url) td) = true →
      hostTld (normalizeHost url) ∈ tlds →
      (get_domain_reputation trusted tlds url).reputation_score = 0.8 := by
  refine ⟨⟨rfl, by decide⟩, ⟨rfl, by decide⟩, ⟨rfl, by decide⟩, ?_⟩
  intro trusted tlds url h1 h2
  simp only [get_domain_reputation, h1, if_true, if_pos h2]

/-- Witness for the overwrite rule of C5: with ad-hoc configured sets a
host can pass both checks, and the score then is 0.8. -/
theorem domain_reputation_c5_witness :
    (get_domain_reputation ["a.xyz"] ["xyz"] "http://a.xyz").reputation_score = 0.8 :=
  domain_reputation_c5.2.2.2 ["a.xyz"] ["xyz"] "http://a.xyz" (by decide) (by decide)

/-! ## Claim C7: factors appear exactly when triggered; hidden-element formula -/

/-- C7: a factor is present in the risk-factor map exactly when its
trigger condition holds, with the value given by its formula; absent
factors are omitted and no present factor has value zero; the
`hidden_elements` factor (when present) equals
`min(max(hidden_count - 5, 0) * 0.10, 0.40)`. -/
theorem factor_triggers_c7 (f : WebpageFeatures) (v : ℚ) :
    (("forms_present", v) ∈ (calculate_content_risk_score f).risk_factors ↔
      0 < f.forms_count ∧ v = min ((f.forms_count : ℚ) * 0.35) 0.7) ∧
    (("password_fields", v) ∈ (calculate_content_risk_score f).risk_factors ↔
      f.input_fields.filter (fun field => containsSub field "password") ≠ [] ∧ v = 0.6) ∧
    (("suspicious_keywords", v) ∈ (calculate_content_risk_score f).risk_factors ↔
      f.suspicious_keywords ≠ [] ∧ v = min ((f.suspicious_keywords.length : ℚ) * 0.15) 0.6) ∧
    (("social_engineering", v) ∈ (calculate_content_risk_score f).risk_factors ↔
      f.social_engineering_signals ≠ [] ∧
        v = min ((f.social_engineering_signals.length : ℚ) * 0.25) 0.7) ∧
    (("urgency_tactics", v) ∈ (calculate_content_risk_score f).risk_factors ↔
      0 < f.urgency_indicators ∧ v = min ((f.urgency_indicators : ℚ) * 0.2) 0.5) ∧
    (("suspicious_javascript", v) ∈ (calculate_content_risk_score f).risk_factors ↔
      f.javascript_suspicious = true ∧ v = 0.2) ∧
    (("popups", v) ∈ (calculate_content_risk_score f).risk_factors ↔
      0 < f.popup_indicators ∧ v = min ((f.popup_indicators : ℚ) * 0.25) 0.5) ∧
    (("hidden_elements", v) ∈ (calculate_content_risk_score f).risk_factors ↔
      5 < f.hidden_elements ∧
        v = min (max ((f.hidden_elements : ℚ) - 5) 0 * 0.1) 0.4) ∧
    (("iframes", v) ∈ (calculate_content_risk_score f).risk_factors ↔
      0 < f.iframe_count ∧ v = min ((f.iframe_count : ℚ) * 0.1) 0.2) ∧
    (("excessive_ads", v) ∈ (calculate_content_risk_score f).risk_factors ↔
      5 < f.ads_count ∧ v = min (((f.ads_count : ℚ) - 5) * 0.06) 0.2) ∧
    (("suspicious_elements", v) ∈ (calculate_content_risk_score f).risk_factors ↔
      f.suspicious_elements ≠ [] ∧ v = min ((f.suspicious_elements.length : ℚ) * 0.2) 0.6) ∧
    (∀ p ∈ (calculate_content_risk_score f).risk_factors, p.2 ≠ 0) := by
  have hmax : 5 < f.hidden_elements →
      max ((f.hidden_elements : ℚ) - 5) 0 = (f.hidden_elements : ℚ) - 5 := by
    intro h5
    refine max_eq_left ?_
    have : (5 : ℚ) ≤ f.hidden_elements := by exact_mod_cast le_of_lt h5
    linarith
  refine ⟨?_, ?_, ?_, ?_, ?_, ?_, ?_, ?_, ?_, ?_, ?_, ?_⟩
  · simp +decide [calculate_content_risk_score, riskEntries, List.mem_append,
      mem_ite_single, Prod.mk.injEq]
  · simp +decide [calculate_content_risk_score, riskEntries, List.mem_append,
      mem_ite_single, Prod.mk.injEq]
  · simp +decide [calculate_content_risk_score, riskEntries, List.mem_append,
      mem_ite_single, Prod.mk.injEq]
  · simp +decide [calculate_content_risk_score, riskEntries, List.mem_append,
      mem_ite_single, Prod.mk.injEq]
  · simp +decide [calculate_content_risk_score, riskEntries, List.mem_append,
      mem_ite_single, Prod.mk.injEq]
  · simp +decide [calculate_content_risk_score, riskEntries, List.mem_append,
      mem_ite_single, Prod.mk.injEq]
  · simp +decide [calculate_content_risk_score, riskEntries, List.mem_append,
      mem_ite_single, Prod.mk.injEq]
  · have hcode : ("hidden_elements", v) ∈ (calculate_content_risk_score f).risk_factors ↔
        5 < f.hidden_elements ∧ v = min (((f.hidden_elements : ℚ) - 5) * 0.1) 0.4 := by
      simp +decide [calculate_content_risk_score, riskEntries, List.mem_append,
        mem_ite_single, Prod.mk.injEq]
    rw [hcode]
    constructor
    · rintro ⟨h5, rfl⟩
      exact ⟨h5, by rw [hmax h5]⟩
    · rintro ⟨h5, rfl⟩
      exact ⟨h5, by rw [hmax h5]⟩
  · simp +decide [calculate_content_risk_score, riskEntries, List.mem_append,
      mem_ite_single, Prod.mk.injEq]
  · simp +decide [calculate_content_risk_score, riskEntries, List.mem_append,
      mem_ite_single, Prod.mk.injEq]
  · simp +decide [calculate_content_risk_score, riskEntries, List.mem_append,
      mem_ite_single, Prod.mk.injEq]
  · exact fun p hp => (riskEntries_pos f p hp).ne'

/-- Feature record triggering only the forms factor, for the C7 witness. -/
def c7features : WebpageFeatures :=
  { title := some "", forms_count := 2, input_fields := [],
    suspicious_keywords := [], popup_indicators := 0, ads_count := 0,
    suspicious_elements := [], text_content := "", meta_description := "",
    javascript_suspicious := false, iframe_count := 0, hidden_elements := 0,
    urgency_indicators := 0, social_engineering_signals := [],
    form_actions := [], suspicious_scripts := [] }

/-- Witness for C7: on a two-form record the forms factor is present
with value 0.7, and that value is nonzero. -/
theorem factor_triggers_c7_witness :
    ("forms_present", (0.7 : ℚ)) ∈ (calculate_content_risk_score c7features).risk_factors ∧
      ((0.7 : ℚ)) ≠ 0 := by
  have hm : ("forms_present", (0.7 : ℚ)) ∈
      (calculate_content_risk_score c7features).risk_factors :=
    (factor_triggers_c7 c7features 0.7).1.mpr
      ⟨by decide, by
        rw [show ((c7features.forms_count : ℕ) : ℚ) * 0.35 = 0.7 by
          rw [show c7features.forms_count = 2 from rfl]; norm_num, min_self]⟩
  exact ⟨hm, (factor_triggers_c7 c7features
    0.7).2.2.2.2.2.2.2.2.2.2.2 ("forms_present", 0.7) hm⟩

/-! ## Document-tree model for the Feature Extractor
(`extract_webpage_features`, lines 113-252)

A parsed BeautifulSoup document is modelled as a list of nodes; an
element node carries its (lower-cased) tag name, attribute list and
children, a text node carries a string. -/

inductive Node where
  | elem (tag : String) (attrs : List (String × String)) (children : List Node)
  | text (s : String)

mutual

/-- All element nodes of a subtree in document (pre-)order, the root
element included; `soup.find_all` filters this enumeration. -/
def elemsOf : Node → List Node
  | .text _ => []
  | .elem t a cs => .elem t a cs :: elemsOfL cs

def elemsOfL : List Node → List Node
  | [] => []
  | n :: ns => elemsOf n ++ elemsOfL ns

end

mutual

/-- Concatenated text content of a subtree, modelling `soup.get_text()`. -/
def textOf : Node → String
  | .text s => s
  | .elem _ _ cs => textOfL cs

def textOfL : List Node → String
  | [] => ""
  | n :: ns => textOf n ++ textOfL ns

end

def nodeTag : Node → String
  | .elem t _ _ => t
  | .text _ => ""

def nodeChildren : Node → List Node
  | .elem _ _ cs => cs
  | .text _ => []

/-- Attribute lookup, modelling `tag.get(key)` (`None` when absent). -/
def nodeAttr (n : Node) (k : String) : Option String :=
  match n with
  | .elem _ attrs _ => attrs.lookup k
  | .text _ => none

/-- Attribute access `tag.get(key, default)`. -/
def nodeAttrD (n : Node) (k d : String) : String := (nodeAttr n k).getD d

/-- Model of the BeautifulSoup `.string` property: the single string
child, descending through chains of single-child elements. -/
def nodeString : Node → Option String
  | .text s => some s
  | .elem _ _ [c] => nodeString c
  | .elem _ _ _ => none

/-- Test that `element.get(k)` exists and its value satisfies the matcher (used
for `find_all(attrs={k: re.compile(...)})` style queries). -/
def hasAttrMatching (n : Node) (k : String) (m : String → Bool) : Bool :=
  match nodeAttr n k with
  | some v => m v
  | none => false

/-! ### The regular-expression matchers used by the extractor, modelled
pattern by pattern (all are applied case-insensitively by the source,
modelled by lower-casing the scanned string; `.` does not cross
newlines). -/

/-- Does the predicate hold at some suffix of the list (the essence of
`re.search`)? -/
def anySuffix (p : List Char → Bool) : List Char → Bool
  | [] => p []
  | c :: t => p (c :: t) || anySuffix p t

/-- Does `b` occur on the current line (no newline crossed before it)?
This is `.*b` of a search continuing from the current position. -/
def lineSearchWord (b : List Char) : List Char → Bool
  | [] => b.isPrefixOf []
  | c :: t => b.isPrefixOf (c :: t) || (c ≠ '\n' && lineSearchWord b t)

/-- A digit occurring on the current line (`.*\d`). -/
def lineSearchDigit : List Char → Bool
  | [] => false
  | c :: t => c.isDigit || (c ≠ '\n' && lineSearchDigit t)

/-- Model of `re.search("a.*b", t)` for literal words `a`, `b`. -/
def sameLineThen (a b t : String) : Bool :=
  anySuffix (fun s => a.data.isPrefixOf s && lineSearchWord b.data (s.drop a.data.length)) t.data

/-- Model of `re.search("expires?.*\\d", t)` (the optional `s` is
absorbed by `.*`). -/
def matchExpireDigit (t : String) : Bool :=
  anySuffix (fun s => "expire".data.isPrefixOf s && lineSearchDigit (s.drop 6)) t.data

/-- Model of `re.search("driver.?license", t)`. -/
def matchDriverLicense (t : String) : Bool :=
  anySuffix (fun s => "driver".data.isPrefixOf s &&
    ("license".data.isPrefixOf (s.drop 6) ||
      match s.drop 6 with
      | c :: r => c ≠ '\n' && "license".data.isPrefixOf r
      | [] => false)) t.data

/-- Alternation of literal substrings, applied to the lower-cased value. -/
def lcContainsAny (v : String) (pats : List String) : Bool :=
  pats.any (fun p => containsSub (pyLower v) p)

/-- An `onclick` value matching `window\.open|popup|modal`. -/
def onclickPopupMatch (v : String) : Bool := lcContainsAny v ["window.open", "popup", "modal"]

/-- Script text matching `alert\(|confirm\(|prompt\(`. -/
def scriptAlertMatch (v : String) : Bool := lcContainsAny v ["alert(", "confirm(", "prompt("]

/-- A `class` value matching `popup|modal|overlay`. -/
def classPopupMatch (v : String) : Bool := lcContainsAny v ["popup", "modal", "overlay"]

/-- Head match for `ad[^a-z]`: literal `ad` followed by one character
outside `a`-`z` (scanned on the lower-cased value, which under `re.I`
is equivalent). -/
def adHead : List Char → Bool
  | 'a' :: 'd' :: c :: _ => !('a' ≤ c && c ≤ 'z')
  | _ => false

/-- A `class` or `id` value matching `ad[^a-z]|banner|advertisement|sponsor`. -/
def matchAdPattern (v : String) : Bool :=
  anySuffix adHead (pyLower v).data ||
    lcContainsAny v ["banner", "advertisement", "sponsor"]

/-- A `style` value matching `display:\s*none|visibility:\s*hidden`. -/
def styleWsThen (pre word : List Char) (l : List Char) : Bool :=
  anySuffix (fun s => pre.isPrefixOf s &&
    word.isPrefixOf ((s.drop pre.length).dropWhile (fun c => c.isWhitespace))) l

def matchHiddenStyle (v : String) : Bool :=
  let t := (pyLower v).data
  styleWsThen "display:".data "none".data t ||
    styleWsThen "visibility:".data "hidden".data t

/-- An `img` `src` value matching `security|secure|ssl|verified|badge`. -/
def securitySrcMatch (v : String) : Bool :=
  lcContainsAny v ["security", "secure", "ssl", "verified", "badge"]

/-- The `sensitive_patterns` list: each entry pairs the regex source
text (embedded verbatim into the produced tag) with a model of its
`re.search` semantics on the lower-cased page text. -/
def sensitive_patterns : List (String × (String → Bool)) :=
  [("social security|ssn|social security number", fun t =>
      containsSub t "social security" || containsSub t "ssn" ||
        containsSub t "social security number"),
   ("credit card|card number|cvv|cvc|expiry", fun t =>
      containsSub t "credit card" || containsSub t "card number" ||
        containsSub t "cvv" || containsSub t "cvc" || containsSub t "expiry"),
   ("bank account|routing number|account number", fun t =>
      containsSub t "bank account" || containsSub t "routing number" ||
        containsSub t "account number"),
   ("driver.?license|license number", fun t =>
      matchDriverLicense t || containsSub t "license number"),
   ("passport|passport number", fun t =>
      containsSub t "passport" || containsSub t "passport number")]

/-- Model of `countdown|timer|expires?.*\d|time.*left`. -/
def matchCountdownTimer (t : String) : Bool :=
  containsSub t "countdown" || containsSub t "timer" || matchExpireDigit t ||
    sameLineThen "time" "left" t

/-- Model of `error.*occurred|something.*wrong|try.*again|failed.*login`. -/
def matchFakeError (t : String) : Bool :=
  sameLineThen "error" "occurred" t || sameLineThen "something" "wrong" t ||
    sameLineThen "try" "again" t || sameLineThen "failed" "login" t

/-! ### The Feature Extractor -/

/-- The `input` elements of document-wide `soup.find_all('input', {'type': 'password'})`. -/
def passwordInputsOf (soup : List Node) : List Node :=
  (elemsOfL soup).filter (fun n => nodeTag n = "input" && nodeAttr n "type" = some "password")

/-- The descriptor string built for one `input` element:
`f"{input_type}:{input_name}:{input_placeholder}"` with each attribute
lower-cased. -/
def inputDescriptor (inp : Node) : String :=
  pyLower (nodeAttrD inp "type" "") ++ ":" ++ pyLower (nodeAttrD inp "name" "") ++ ":" ++
    pyLower (nodeAttrD inp "placeholder" "")

/-- The `form` elements of `soup.find_all('form')`. -/
def formsOf (soup : List Node) : List Node :=
  (elemsOfL soup).filter (fun n => nodeTag n = "form")

/-- The `img` elements whose `src` matches the security-badge pattern. -/
def securityImagesOf (soup : List Node) : List Node :=
  (elemsOfL soup).filter (fun n => nodeTag n = "img" &&
    hasAttrMatching n "src" securitySrcMatch)

/-- The lower-cased full page text, `soup.get_text().lower()` (scans run
against this untruncated text). -/
def pageText (soup : List Node) : String := pyLower (textOfL soup)

/-- The `suspicious_elements` accumulation of lines 197-233: password
fields, sensitive-data requests, multiple forms, excessive security
badges, countdown language and fake-error language. -/
def suspiciousElementsOf (soup : List Node) : List String :=
  let text_content := pageText soup
  (if (passwordInputsOf soup).length ≠ 0 then
    ["password_fields:" ++ Nat.repr (passwordInputsOf soup).length] else [])
  ++ ((sensitive_patterns.filter (fun p => p.2 text_content)).map
      (fun p => "sensitive_data_request:" ++ p.1))
  ++ (if 2 < (formsOf soup).length then
    ["multiple_forms:" ++ Nat.repr (formsOf soup).length] else [])
  ++ (if 3 < (securityImagesOf soup).length then
    ["excessive_security_badges:" ++ Nat.repr (securityImagesOf soup).length] else [])
  ++ (if matchCountdownTimer text_content then ["countdown_timer"] else [])
  ++ (if matchFakeError text_content then ["fake_error_messages"] else [])

/-- The method `extract_webpage_features`, over the document-tree model. -/
def extract_webpage_features (soup : List Node) : WebpageFeatures :=
  let all := elemsOfL soup
  let title :=
    match all.find? (fun n => nodeTag n = "title") with
    | some t => nodeString t
    | none => some ""
  let meta_desc :=
    match all.find? (fun n => nodeTag n = "meta" && nodeAttr n "name" = some "description") with
    | some m => nodeAttrD m "content" ""
    | none => ""
  let forms := all.filter (fun n => nodeTag n = "form")
  let forms_count := forms.length
  let form_actions := forms.filterMap (fun f =>
    let action := nodeAttrD f "action" ""
    if action ≠ "" then some action else none)
  let input_fields := forms.flatMap (fun f =>
    ((elemsOfL (nodeChildren f)).filter (fun n => nodeTag n = "input")).map inputDescriptor)
  let text_content := pyLower (textOfL soup)
  let suspicious_found := suspicious_keywords_vocab.filter (fun kw => containsSub text_content kw)
  let social_signals := social_engineering_vocab.filter (fun p => containsSub text_content p)
  let urgency_count := (urgency_words_vocab.filter (fun w => containsSub text_content w)).length
  let popup_indicators :=
    (all.filter (fun n => hasAttrMatching n "onclick" onclickPopupMatch)).length +
    (all.filter (fun n => nodeTag n = "script" &&
      match nodeString n with
      | some s => scriptAlertMatch s
      | none => false)).length +
    (all.filter (fun n => hasAttrMatching n "class" classPopupMatch)).length +
    (all.filter (fun n => nodeAttr n "data-toggle" = some "modal")).length
  let ads_count :=
    (all.filter (fun n => hasAttrMatching n "class" matchAdPattern)).length +
    (all.filter (fun n => hasAttrMatching n "id" matchAdPattern)).length
  let iframe_count := (all.filter (fun n => nodeTag n = "iframe")).length
  let hidden_elements :=
    (all.filter (fun n => hasAttrMatching n "style" matchHiddenStyle)).length +
    (all.filter (fun n => nodeAttr n "type" = some "hidden")).length
  let scripts := all.filter (fun n => nodeTag n = "script")
  let script_hits := scripts.filterMap (fun s =>
    let script_content := (nodeString s).getD ""
    let script_src := nodeAttrD s "src" ""
    suspicious_js_patterns.find? (fun p =>
      containsSub (pyLower script_content) p || containsSub (pyLower script_src) p))
  let js_suspicious := !script_hits.isEmpty
  let suspicious_elements := suspiciousElementsOf soup
  { title := title
    forms_count := forms_count
    input_fields := input_fields
    suspicious_keywords := suspicious_found
    popup_indicators := popup_indicators
    ads_count := ads_count
    suspicious_elements := suspicious_elements
    text_content := pyTakeStr text_content 2000
    meta_description := meta_desc
    javascript_suspicious := js_suspicious
    iframe_count := iframe_count
    hidden_elements := hidden_elements
    urgency_indicators := urgency_count
    social_engineering_signals := social_signals
    form_actions := form_actions
    suspicious_scripts := dedupFirst script_hits }

/-! ## Claim C10: the password factor keys on a substring of the descriptor -/

/-- C10: the flat 0.60 `password_fields` factor fires whenever the
substring `password` occurs anywhere in some `type:name:placeholder`
input descriptor (no password-typed input is required). -/
theorem password_substring_c10 (f : WebpageFeatures)
    (h : ∃ d ∈ f.input_fields, containsSub d "password" = true) :
    ("password_fields", (0.6 : ℚ)) ∈ (calculate_content_risk_score f).risk_factors := by
  have hfilter : f.input_fields.filter (fun field => containsSub field "password") ≠ [] := by
    obtain ⟨d, hd, hc⟩ := h
    intro hnil
    have := List.filter_eq_nil_iff.mp hnil d hd
    simp [hc] at this
  have hmem : ("password_fields", (0.6 : ℚ)) ∈
      (if f.input_fields.filter (fun field => containsSub field "password") ≠ [] then
        [(("password_fields" : String), (0.6 : ℚ))] else []) :=
    mem_ite_single.mpr ⟨hfilter, rfl⟩
  show ("password_fields", (0.6 : ℚ)) ∈ riskEntries f
  unfold riskEntries
  exact List.mem_append_left _ (List.mem_append_left _ (List.mem_append_left _
    (List.mem_append_left _ (List.mem_append_left _ (List.mem_append_left _
    (List.mem_append_left _ (List.mem_append_left _ (List.mem_append_left _
    (List.mem_append_right _ hmem)))))))))

/-- A page whose only input is a text field named `password_hint`. -/
def c10soup : List Node :=
  [.elem "form" [] [.elem "input" [("type", "text"), ("name", "password_hint")] []]]

/-- Witness for C10: the page has no password-typed input, its single
descriptor is `text:password_hint:`, and the 0.60 factor still fires. -/
theorem password_substring_c10_witness :
    (passwordInputsOf c10soup).length = 0 ∧
    (extract_webpage_features c10soup).input_fields = ["text:password_hint:"] ∧
    ("password_fields", (0.6 : ℚ)) ∈
      (calculate_content_risk_score (extract_webpage_features c10soup)).risk_factors :=
  ⟨by decide, by decide,
    password_substring_c10 (extract_webpage_features c10soup)
      ⟨"text:password_hint:", by decide, by decide⟩⟩

/-! ## Claim C6: extractor invariants -/

/-- Distinct heads make appended strings distinct. -/
theorem append_ne_of_head (p x t : String) (c : Char) (hp : p.data.head? = some c)
    (ht : t.data.head? ≠ some c) : p ++ x ≠ t := by
  intro he
  apply ht
  rw [← he]
  obtain ⟨l⟩ := x
  obtain ⟨lp⟩ := p
  cases lp with
  | nil => exact absurd hp (by simp)
  | cons a as => exact hp

/-- A discriminating kind for the suspicious-element tags: the five
sensitive-data tags get 1-5, and the remaining tag families are keyed
by their distinct first characters. -/
def tagKind (s : String) : ℕ :=
  if s = "sensitive_data_request:social security|ssn|social security number" then 1
  else if s = "sensitive_data_request:credit card|card number|cvv|cvc|expiry" then 2
  else if s = "sensitive_data_request:bank account|routing number|account number" then 3
  else if s = "sensitive_data_request:driver.?license|license number" then 4
  else if s = "sensitive_data_request:passport|passport number" then 5
  else
    match s.data with
    | 'p' :: _ => 0
    | 'm' :: _ => 6
    | 'e' :: _ => 7
    | 'c' :: _ => 8
    | 'f' :: _ => 9
    | _ => 100

theorem tagKind_pf (x : String) : tagKind ("password_fields:" ++ x) = 0 := by
  obtain ⟨l⟩ := x
  unfold tagKind
  rw [if_neg (append_ne_of_head "password_fields:" _ _ 'p' (by decide) (by decide)),
    if_neg (append_ne_of_head "password_fields:" _ _ 'p' (by decide) (by decide)),
    if_neg (append_ne_of_head "password_fields:" _ _ 'p' (by decide) (by decide)),
    if_neg (append_ne_of_head "password_fields:" _ _ 'p' (by decide) (by decide)),
    if_neg (append_ne_of_head "password_fields:" _ _ 'p' (by decide) (by decide))]
  rfl

theorem tagKind_mf (x : String) : tagKind ("multiple_forms:" ++ x) = 6 := by
  obtain ⟨l⟩ := x
  unfold tagKind
  rw [if_neg (append_ne_of_head "multiple_forms:" _ _ 'm' (by decide) (by decide)),
    if_neg (append_ne_of_head "multiple_forms:" _ _ 'm' (by decide) (by decide)),
    if_neg (append_ne_of_head "multiple_forms:" _ _ 'm' (by decide) (by decide)),
    if_neg (append_ne_of_head "multiple_forms:" _ _ 'm' (by decide) (by decide)),
    if_neg (append_ne_of_head "multiple_forms:" _ _ 'm' (by decide) (by decide))]
  rfl

theorem tagKind_badges (x : String) : tagKind ("excessive_security_badges:" ++ x) = 7 := by
  obtain ⟨l⟩ := x
  unfold tagKind
  rw [if_neg (append_ne_of_head "excessive_security_badges:" _ _ 'e' (by decide) (by decide)),
    if_neg (append_ne_of_head "excessive_security_badges:" _ _ 'e' (by decide) (by decide)),
    if_neg (append_ne_of_head "excessive_security_badges:" _ _ 'e' (by decide) (by decide)),
    if_neg (append_ne_of_head "excessive_security_badges:" _ _ 'e' (by decide) (by decide)),
    if_neg (append_ne_of_head "excessive_security_badges:" _ _ 'e' (by decide) (by decide))]
  rfl

theorem map_ite_single_sublist {α β : Type} {c : Prop} [Decidable c] {x : α} {f : α → β}
    {y : β} (h : f x = y) : (List.map f (if c then [x] else [])).Sublist [y] := by
  split
  · simp only [List.map_cons, List.map_nil, h]
    exact List.Sublist.refl _
  · simp only [List.map_nil]
    exact List.nil_sublist _

/-- The kinds of the suspicious-element tags, in assembly order, form a
sublist of `[0,…,9]`. -/
theorem suspiciousElementsOf_kinds (soup : List Node) :
    ((suspiciousElementsOf soup).map tagKind).Sublist [0, 1, 2, 3, 4, 5, 6, 7, 8, 9] := by
  unfold suspiciousElementsOf
  simp only [List.map_append]
  rw [show ([0, 1, 2, 3, 4, 5, 6, 7, 8, 9] : List ℕ) =
    (((([0] ++ [1, 2, 3, 4, 5]) ++ [6]) ++ [7]) ++ [8]) ++ [9] from rfl]
  refine List.Sublist.append (List.Sublist.append (List.Sublist.append
    (List.Sublist.append (List.Sublist.append ?_ ?_) ?_) ?_) ?_) ?_
  · exact map_ite_single_sublist (tagKind_pf _)
  · rw [List.map_map]
    have h5 : sensitive_patterns.map
        (tagKind ∘ fun p => "sensitive_data_request:" ++ p.1) = [1, 2, 3, 4, 5] := rfl
    exact h5 ▸ List.Sublist.map _ (List.filter_sublist _)
  · exact map_ite_single_sublist (tagKind_mf _)
  · exact map_ite_single_sublist (tagKind_badges _)
  · exact map_ite_single_sublist (show tagKind "countdown_timer" = 8 by decide)
  · exact map_ite_single_sublist (show tagKind "fake_error_messages" = 9 by decide)

theorem dedupFirstAux_spec (l : List String) :
    ∀ seen, (dedupFirstAux seen l).Nodup ∧ ∀ x ∈ dedupFirstAux seen l, x ∉ seen := by
  induction l with
  | nil => intro seen; simp [dedupFirstAux]
  | cons a t ih =>
    intro seen
    unfold dedupFirstAux
    split
    · exact ih seen
    · rename_i hnot
      obtain ⟨hnodup, hmem⟩ := ih (a :: seen)
      refine ⟨List.nodup_cons.mpr ⟨fun hin => (hmem a hin) (List.mem_cons_self a seen), hnodup⟩, ?_⟩
      intro x hx
      rcases List.mem_cons.mp hx with rfl | hx2
      · exact hnot
      · exact fun hseen => (hmem x hx2) (List.mem_cons_of_mem _ hseen)

theorem dedupFirst_nodup (l : List String) : (dedupFirst l).Nodup :=
  (dedupFirstAux_spec l []).1

/-- A page with two identical inputs in one form and two forms sharing
one action target: both descriptor and action lists duplicate. -/
def c6soup : List Node :=
  [.elem "form" [("action", "submit.php")] [.elem "input" [] [], .elem "input" [] []],
   .elem "form" [("action", "submit.php")] []]

/-- Counterexample for C6 as stated: the input-descriptor and
form-action list fields of this feature record do contain duplicates. -/
theorem extractor_invariants_c6_counterexample :
    (extract_webpage_features c6soup).input_fields = ["::", "::"] ∧
    ¬ (extract_webpage_features c6soup).input_fields.Nodup ∧
    (extract_webpage_features c6soup).form_actions = ["submit.php", "submit.php"] ∧
    ¬ (extract_webpage_features c6soup).form_actions.Nodup := by
  refine ⟨by decide, by decide, by decide, by decide⟩

/-- C6 (amended): every count field is non-negative, the keyword,
social-engineering, script-pattern and suspicious-element lists are
duplicate-free, and the stored text body never exceeds 2000 characters
(input descriptors and form actions may repeat). -/
theorem extractor_invariants_c6 (soup : List Node) :
    0 ≤ (extract_webpage_features soup).forms_count ∧
    0 ≤ (extract_webpage_features soup).popup_indicators ∧
    0 ≤ (extract_webpage_features soup).ads_count ∧
    0 ≤ (extract_webpage_features soup).iframe_count ∧
    0 ≤ (extract_webpage_features soup).hidden_elements ∧
    0 ≤ (extract_webpage_features soup).urgency_indicators ∧
    (extract_webpage_features soup).suspicious_keywords.Nodup ∧
    (extract_webpage_features soup).social_engineering_signals.Nodup ∧
    (extract_webpage_features soup).suspicious_scripts.Nodup ∧
    (extract_webpage_features soup).suspicious_elements.Nodup ∧
    (extract_webpage_features soup).text_content.length ≤ 2000 := by
  refine ⟨Nat.zero_le _, Nat.zero_le _, Nat.zero_le _, Nat.zero_le _, Nat.zero_le _,
    Nat.zero_le _, ?_, ?_, ?_, ?_, ?_⟩
  · exact List.Nodup.filter _ (by decide)
  · exact List.Nodup.filter _ (by decide)
  · exact dedupFirst_nodup _
  · exact List.Nodup.of_map tagKind
      (List.Nodup.sublist (suspiciousElementsOf_kinds soup) (by decide))
  · show (pyTakeStr (pageText soup) 2000).length ≤ 2000
    show ((pageText soup).data.take 2000).length ≤ 2000
    rw [List.length_take]
    exact min_le_left _ _

/-! ## JSON values and a model of `json.loads`
(for the Model Judgment Adapter, `analyze_content_with_llm`, lines 379-418) -/

inductive Json where
  | null
  | bool (b : Bool)
  | num (q : ℚ)
  | str (s : String)
  | arr (items : List Json)
  | obj (members : List (String × Json))

def lbraceChar : Char := Char.ofNat 123

def rbraceChar : Char := Char.ofNat 125

/-- Key lookup in a parsed object; on duplicate keys the last wins, as
in the dict produced by `json.loads`. -/
def objLookup (members : List (String × Json)) (k : String) : Option Json :=
  members.reverse.lookup k

/-- Field access `d[k]` / `d.get(k)` on a parsed JSON object. -/
def jsonField (j : Json) (k : String) : Option Json :=
  match j with
  | .obj members => objLookup members k
  | _ => none

/-- Numeric coercion as Python applies it to a dict entry used in
arithmetic: ints and floats are numbers, bools are 0/1, everything else
is a `TypeError`. -/
def jsonToNumber : Json → Option ℚ
  | .num q => some q
  | .bool b => some (if b then 1 else 0)
  | _ => none

def jsonNumField (j : Json) (k : String) : Option ℚ :=
  (jsonField j k).bind jsonToNumber

def jsonSkipWs (l : List Char) : List Char :=
  l.dropWhile (fun c => c = ' ' || c = '\t' || c = '\n' || c = '\r')

def digitsToNat (ds : List Char) : ℕ :=
  ds.foldl (fun a c => a * 10 + (c.toNat - 48)) 0

/-- Value of a JSON number from its sign, integer digits, fraction
digits and exponent (an integer stays a plain integer value). -/
def jsonNumVal (neg : Bool) (ds fs : List Char) (eneg : Bool) (es : List Char) : ℚ :=
  if fs.isEmpty ∧ es.isEmpty then
    if neg then -((digitsToNat ds : ℕ) : ℚ) else ((digitsToNat ds : ℕ) : ℚ)
  else
    let base : ℚ := (digitsToNat ds : ℚ) + (digitsToNat fs : ℚ) / (10 : ℚ) ^ fs.length
    let scaled : ℚ :=
      if es.isEmpty then base
      else if eneg then base / (10 : ℚ) ^ digitsToNat es
      else base * (10 : ℚ) ^ digitsToNat es
    if neg then -scaled else scaled

def parseExpDigits (neg : Bool) (ds fs : List Char) (l : List Char) : Option (ℚ × List Char) :=
  let step : Bool × List Char :=
    match l with
    | '+' :: t => (false, t)
    | '-' :: t => (true, t)
    | _ => (false, l)
  let es := step.2.takeWhile Char.isDigit
  if es = [] then none else some (jsonNumVal neg ds fs step.1 es, step.2.dropWhile Char.isDigit)

def parseExpPart (neg : Bool) (ds fs : List Char) (l : List Char) : Option (ℚ × List Char) :=
  match l with
  | 'e' :: t => parseExpDigits neg ds fs t
  | 'E' :: t => parseExpDigits neg ds fs t
  | _ => some (jsonNumVal neg ds fs false [], l)

/-- JSON number grammar: `-?(0|[1-9][0-9]*)(\.[0-9]+)?([eE][+-]?[0-9]+)?`. -/
def parseNumber (l : List Char) : Option (ℚ × List Char) :=
  let step : Bool × List Char :=
    match l with
    | '-' :: t => (true, t)
    | _ => (false, l)
  let ds := step.2.takeWhile Char.isDigit
  let l2 := step.2.dropWhile Char.isDigit
  if ds = [] then none
  else if 1 < ds.length ∧ ds.headD ' ' = '0' then none
  else
    match l2 with
    | '.' :: t =>
        let fs := t.takeWhile Char.isDigit
        if fs = [] then none
        else parseExpPart step.1 ds fs (t.dropWhile Char.isDigit)
    | _ => parseExpPart step.1 ds [] l2

def hexVal (c : Char) : Option ℕ :=
  if '0' ≤ c ∧ c ≤ '9' then some (c.toNat - 48)
  else if 'a' ≤ c ∧ c ≤ 'f' then some (c.toNat - 87)
  else if 'A' ≤ c ∧ c ≤ 'F' then some (c.toNat - 55)
  else none

def escChar (e : Char) : Option Char :=
  if e = '"' then some '"'
  else if e = '\\' then some '\\'
  else if e = '/' then some '/'
  else if e = 'b' then some (Char.ofNat 8)
  else if e = 'f' then some (Char.ofNat 12)
  else if e = 'n' then some '\n'
  else if e = 'r' then some '\r'
  else if e = 't' then some '\t'
  else none

/-- Body of a JSON string after the opening quote: returns the decoded
characters and the input after the closing quote.  Unescaped control
characters are rejected, as by `json.loads` in strict mode. -/
def parseStringBody : List Char → Option (List Char × List Char)
  | [] => none
  | c :: t =>
    if c = '"' then some ([], t)
    else if c = '\\' then
      match t with
      | [] => none
      | e :: t2 =>
        if e = 'u' then
          match t2 with
          | a :: b :: c2 :: d :: t3 =>
            match hexVal a, hexVal b, hexVal c2, hexVal d with
            | some x1, some x2, some x3, some x4 =>
              (parseStringBody t3).map
                (fun r => (Char.ofNat (((x1 * 16 + x2) * 16 + x3) * 16 + x4) :: r.1, r.2))
            | _, _, _, _ => none
          | _ => none
        else
          match escChar e with
          | some ec => (parseStringBody t2).map (fun r => (ec :: r.1, r.2))
          | none => none
    else if c.toNat < 32 then none
    else (parseStringBody t).map (fun r => (c :: r.1, r.2))

mutual

/-- One JSON value, fuelled recursive descent (whitespace skipped
before every token, as the `json` module allows). -/
def parseValue : ℕ → List Char → Option (Json × List Char)
  | 0, _ => none
  | fuel + 1, l =>
    match jsonSkipWs l with
    | [] => none
    | c :: t =>
      if c = '"' then (parseStringBody t).map (fun r => (Json.str (String.mk r.1), r.2))
      else if c = lbraceChar then
        match jsonSkipWs t with
        | c2 :: t2 =>
          if c2 = rbraceChar then some (.obj [], t2)
          else (parseObjMembers fuel (c2 :: t2)).map (fun r => (Json.obj r.1, r.2))
        | [] => none
      else if c = '[' then
        match jsonSkipWs t with
        | c2 :: t2 =>
          if c2 = ']' then some (.arr [], t2)
          else (parseArrItems fuel (c2 :: t2)).map (fun r => (Json.arr r.1, r.2))
        | [] => none
      else if c = 't' then
        if "rue".data.isPrefixOf t then some (.bool true, t.drop 3) else none
      else if c = 'f' then
        if "alse".data.isPrefixOf t then some (.bool false, t.drop 4) else none
      else if c = 'n' then
        if "ull".data.isPrefixOf t then some (.null, t.drop 3) else none
      else
        (parseNumber (c :: t)).map (fun r => (Json.num r.1, r.2))

/-- The members of an object after its opening brace (first member
pending), up to and including the closing brace. -/
def parseObjMembers : ℕ → List Char → Option (List (String × Json) × List Char)
  | 0, _ => none
  | fuel + 1, l =>
    match jsonSkipWs l with
    | c :: t =>
      if c = '"' then
        match parseStringBody t with
        | some (key, rest) =>
          match jsonSkipWs rest with
          | ':' :: rest2 =>
            match parseValue fuel rest2 with
            | some (v, rest3) =>
              match jsonSkipWs rest3 with
              | ',' :: rest4 =>
                (parseObjMembers fuel rest4).map (fun r => ((String.mk key, v) :: r.1, r.2))
              | c2 :: rest4 =>
                if c2 = rbraceChar then some ([(String.mk key, v)], rest4) else none
              | [] => none
            | none => none
          | _ => none
        | none => none
      else none
    | [] => none

/-- The items of an array after its opening bracket (first item
pending), up to and including the closing bracket. -/
def parseArrItems : ℕ → List Char → Option (List Json × List Char)
  | 0, _ => none
  | fuel + 1, l =>
    match parseValue fuel l with
    | some (v, rest) =>
      match jsonSkipWs rest with
      | ',' :: rest2 => (parseArrItems fuel rest2).map (fun r => (v :: r.1, r.2))
      | ']' :: rest2 => some ([v], rest2)
      | _ => none
    | none => none

end

/-- Model of `json.loads`: parse one value, allow surrounding
whitespace, reject trailing input.  The fuel is generous: every two
units of fuel consume at least one input character. -/
def json_loads (s : String) : Option Json :=
  match parseValue (2 * s.length + 2) s.data with
  | some (j, rest) => if jsonSkipWs rest = [] then some j else none
  | none => none

/-! ## Model Judgment Adapter (`analyze_content_with_llm`, lines 379-418) -/

/-- The degraded judgment returned when the response holds no brace
pair (lines 402-408). -/
def degradedParseJudgment : Json :=
  .obj [("phishing_likelihood", .num 50),
        ("content_red_flags", .arr [.str "LLM parsing failed"]),
        ("confidence", .num 0),
        ("primary_tactics", .arr []),
        ("reasoning", .str "Could not parse LLM response")]

/-- The degraded judgment of the `except` branch (lines 410-418); `e`
is `str(exception)`. -/
def degradedErrorJudgment (e : String) : Json :=
  .obj [("phishing_likelihood", .num 50),
        ("content_red_flags", .arr [.str ("LLM error: " ++ e)]),
        ("confidence", .num 0),
        ("primary_tactics", .arr []),
        ("reasoning", .str "LLM analysis failed")]

/-- Stand-in for `str(json.JSONDecodeError)` when `json.loads` fails
inside the `try` block: the adapter only embeds the message into the
diagnostic red flag and never inspects it. -/
def jsonDecodeErrorStr : String := "Expecting value"

/-- The method `analyze_content_with_llm`.  The transport to the text-generation
collaborator is an external interface, modelled by its outcome: either
the raw response text (`response['response']`) or the message of the
raised exception. -/
def analyze_content_with_llm (resp : Except String String) : Json :=
  match resp with
  | .error e => degradedErrorJudgment e
  | .ok raw =>
    let response_text := pyStrip raw
    let json_start := pyFindChar response_text lbraceChar
    let json_end := pyRFindChar response_text rbraceChar + 1
    if json_start ≠ -1 ∧ json_start < json_end then
      match json_loads (pySliceStr response_text json_start json_end) with
      | some llm_analysis => llm_analysis
      | none => degradedErrorJudgment jsonDecodeErrorStr
    else degradedParseJudgment

/-! ## Claim C4: the adapter's return contract -/

def isStrArr : Json → Bool
  | .arr items => items.all (fun j => match j with | .str _ => true | _ => false)
  | _ => false

def isNumIn0to100 : Option Json → Bool
  | some (.num q) => decide (0 ≤ q) && decide (q ≤ 100)
  | _ => false

/-- Structural validity of a model-judgment record as C4 words it:
`phishing_likelihood` and `confidence` numeric in [0,100], red flags a
list of strings, tactics a list, reasoning a string. -/
def structurallyValidJudgment (j : Json) : Bool :=
  isNumIn0to100 (jsonField j "phishing_likelihood") &&
  isNumIn0to100 (jsonField j "confidence") &&
  (match jsonField j "content_red_flags" with
   | some a => isStrArr a
   | none => false) &&
  (match jsonField j "primary_tactics" with
   | some (.arr _) => true
   | _ => false) &&
  (match jsonField j "reasoning" with
   | some (.str _) => true
   | _ => false)

/-- Counterexample for C4 as stated: on the syntactically valid response
`{"phishing_likelihood": 200}` the adapter returns the parsed object
as-is, with likelihood 200 outside [0,100] and every other field
missing — not a structurally valid judgment. -/
theorem model_judgment_c4_counterexample :
    jsonNumField (analyze_content_with_llm (.ok "\x7b\"phishing_likelihood\": 200\x7d"))
        "phishing_likelihood" = some 200 ∧
    structurallyValidJudgment
        (analyze_content_with_llm (.ok "\x7b\"phishing_likelihood\": 200\x7d")) = false ∧
    ¬ ((200 : ℚ) ≤ 100) := by
  refine ⟨by decide, by decide, by norm_num⟩

/-- C4 (amended): on every transport/service error and on every raw
response without a usable brace pair or with an unparsable brace
substring, the adapter returns the degraded sentinel judgment
(likelihood 50, confidence 0, one diagnostic red flag, empty tactics),
which is structurally valid; but on a successful parse the parsed
object is returned unvalidated, exactly as parsed. -/
theorem model_judgment_c4 :
    (∀ e : String,
      analyze_content_with_llm (.error e) = degradedErrorJudgment e ∧
      jsonNumField (degradedErrorJudgment e) "phishing_likelihood" = some 50 ∧
      jsonNumField (degradedErrorJudgment e) "confidence" = some 0 ∧
      (∃ flag, jsonField (degradedErrorJudgment e) "content_red_flags" =
        some (.arr [.str flag])) ∧
      jsonField (degradedErrorJudgment e) "primary_tactics" = some (.arr []) ∧
      structurallyValidJudgment (degradedErrorJudgment e) = true) ∧
    (∀ s : String,
      ¬ (pyFindChar (pyStrip s) lbraceChar ≠ -1 ∧
         pyFindChar (pyStrip s) lbraceChar < pyRFindChar (pyStrip s) rbraceChar + 1) →
      analyze_content_with_llm (.ok s) = degradedParseJudgment) ∧
    (jsonNumField degradedParseJudgment "phishing_likelihood" = some 50 ∧
     jsonNumField degradedParseJudgment "confidence" = some 0 ∧
     jsonField degradedParseJudgment "content_red_flags" =
       some (.arr [.str "LLM parsing failed"]) ∧
     jsonField degradedParseJudgment "primary_tactics" = some (.arr []) ∧
     structurallyValidJudgment degradedParseJudgment = true) ∧
    (∀ s : String,
      (pyFindChar (pyStrip s) lbraceChar ≠ -1 ∧
       pyFindChar (pyStrip s) lbraceChar < pyRFindChar (pyStrip s) rbraceChar + 1) →
      json_loads (pySliceStr (pyStrip s) (pyFindChar (pyStrip s) lbraceChar)
        (pyRFindChar (pyStrip s) rbraceChar + 1)) = none →
      analyze_content_with_llm (.ok s) = degradedErrorJudgment jsonDecodeErrorStr) ∧
    (∀ (s : String) (j : Json),
      (pyFindChar (pyStrip s) lbraceChar ≠ -1 ∧
       pyFindChar (pyStrip s) lbraceChar < pyRFindChar (pyStrip s) rbraceChar + 1) →
      json_loads (pySliceStr (pyStrip s) (pyFindChar (pyStrip s) lbraceChar)
        (pyRFindChar (pyStrip s) rbraceChar + 1)) = some j →
      analyze_content_with_llm (.ok s) = j) := by
  refine ⟨?_, ?_, ?_, ?_, ?_⟩
  · intro e
    exact ⟨rfl, rfl, rfl, ⟨"LLM error: " ++ e, rfl⟩, rfl, rfl⟩
  · intro s h
    simp only [analyze_content_with_llm]
    rw [if_neg h]
  · exact ⟨by decide, by decide, rfl, rfl, by decide⟩
  · intro s h hparse
    simp only [analyze_content_with_llm]
    rw [if_pos h, hparse]
  · intro s j h hparse
    simp only [analyze_content_with_llm]
    rw [if_pos h, hparse]

/-- Witness for C4 (amended) at concrete inputs: a transport error, a
brace-free response, an unparsable brace pair, and a successful parse. -/
theorem model_judgment_c4_witness :
    analyze_content_with_llm (.error "connection refused") =
      degradedErrorJudgment "connection refused" ∧
    analyze_content_with_llm (.ok "no json here") = degradedParseJudgment ∧
    analyze_content_with_llm (.ok "\x7bnot json\x7d") =
      degradedErrorJudgment jsonDecodeErrorStr ∧
    analyze_content_with_llm (.ok "\x7b\"phishing_likelihood\": 20\x7d") =
      .obj [("phishing_likelihood", .num 20)] :=
  ⟨(model_judgment_c4.1 "connection refused").1,
   model_judgment_c4.2.1 "no json here" (by decide),
   model_judgment_c4.2.2.2.1 "\x7bnot json\x7d" (by decide) rfl,
   model_judgment_c4.2.2.2.2 "\x7b\"phishing_likelihood\": 20\x7d"
     (.obj [("phishing_likelihood", .num 20)]) (by decide) rfl⟩

/-! ## The pipeline `detect_webpage_phishing` (lines 420-489) -/

/-- The two shapes of dict `detect_webpage_phishing` returns — the
fetch-failure dict of lines 431-436 (which carries `url`, `error`,
`is_phishing` and `confidence` keys) and the full verdict dict — plus
the uncaught-exception outcome of line 450 when the parsed judgment
has no usable `phishing_likelihood` entry. -/
inductive DetectResult where
  | fetchError (url error_msg : String) (is_phishing : Bool) (confidence : ℚ)
  | verdict (url : String) (is_phishing : Bool) (confidence : ℚ)
      (combined_risk_score : ℚ) (domain_reputation : DomainReputation)
      (content_analysis : ContentAnalysis) (llm_analysis : Json)
      (features : WebpageFeatures)
  | raised (msg : String)

/-- The method `detect_webpage_phishing`.  The scrape of the document-source
collaborator is modelled by its outcome (`none` on any scraping
exception), the text-generation transport as in
`analyze_content_with_llm`. -/
def detect_webpage_phishing (url : String) (fetched : Option (List Node))
    (llmResp : Except String String) : DetectResult :=
  let domain_reputation :=
    get_domain_reputation trusted_domains_config suspicious_tlds_config url
  match fetched with
  | none => .fetchError url "Failed to scrape webpage" false 0
  | some soup =>
    let features := extract_webpage_features soup
    let content_analysis := calculate_content_risk_score features
    let llm_analysis := analyze_content_with_llm llmResp
    match jsonNumField llm_analysis "phishing_likelihood" with
    | none => .raised "phishing_likelihood missing or not a number"
    | some likelihood =>
      let out := combineDecision content_analysis.total_risk_score likelihood
        domain_reputation.reputation_score
      .verdict url out.is_phishing out.confidence out.combined_risk_score
        domain_reputation content_analysis llm_analysis features

def errIsPhishing : DetectResult → Option Bool
  | .fetchError _ _ b _ => some b
  | _ => none

def errConfidence : DetectResult → Option ℚ
  | .fetchError _ _ _ c => some c
  | _ => none

/-! ## The caller layer `predict_phishing` of `page_api.py` (lines 92-147) -/

structure PhishingResponse where
  url : String
  prediction : ℕ
  risk_score : ℚ
  red_flags : List String

/-- Model of `factor.replace('_', ' ')`. -/
def replaceUnderscores (s : String) : String :=
  String.mk (s.data.map (fun c => if c = '_' then ' ' else c))

/-- Model of Python `str.title()`: a letter following a non-letter is
upper-cased, any other letter lower-cased. -/
def pyTitleCase (s : String) : String :=
  String.mk (go false s.data)
where
  go : Bool → List Char → List Char
    | _, [] => []
    | prevAlpha, c :: t =>
      (if c.isAlpha && !prevAlpha then c.toUpper
       else if c.isAlpha then c.toLower else c) :: go c.isAlpha t

/-- Two-digit zero-padded rendering of `n < 100`. -/
def natPad2 (n : ℕ) : String :=
  if n < 10 then "0" ++ Nat.repr n else Nat.repr n

/-- Model of `f"{score:.2f}"`.  `round` here is round-half-up where
Python rounds half to even, but every factor score is an integer number
of hundredths, so no half ever arises. -/
def formatScore2 (q : ℚ) : String :=
  let n : ℤ := round (q * 100)
  (if n < 0 then "-" else "") ++ Nat.repr (n.natAbs / 100) ++ "." ++ natPad2 (n.natAbs % 100)

/-- Model of Python `round(x, 2)` (same caveat as `formatScore2`). -/
def roundTo2 (q : ℚ) : ℚ := ((round (q * 100) : ℤ) : ℚ) / 100

/-- The red-flag assembly of `predict_phishing` (lines 109-137),
applied to the components it reads out of the analysis result: extend
with the model red flags, the model tactics prefixed `Tactic: `, the
heuristic factors above 0.1 rendered title-cased with two decimals,
and — only when the reputation score is at least 0.8 — the domain
reasons prefixed `Domain: `; then deduplicate keeping first
occurrences and truncate to 4. -/
def predictRedFlags (content_red_flags primary_tactics : List String)
    (risk_factors : List (String × ℚ)) (reputation_score : ℚ)
    (reputation_reason : List String) : List String :=
  let red_flags : List String := []
  let red_flags := red_flags ++ content_red_flags
  let red_flags := red_flags ++ primary_tactics.map (fun tactic => "Tactic: " ++ tactic)
  let red_flags := red_flags ++ (risk_factors.filter (fun p => 0.1 < p.2)).map
    (fun p => pyTitleCase (replaceUnderscores p.1) ++ ": " ++ formatScore2 p.2)
  let red_flags :=
    if 0.8 ≤ reputation_score then
      red_flags ++ reputation_reason.map (fun reason => "Domain: " ++ reason)
    else red_flags
  (dedupFirst red_flags).take 4

/-- String members of a JSON array field (the judgment contract makes
these fields lists of strings; non-string members are skipped). -/
def jsonStrListField (j : Json) (k : String) : List String :=
  match jsonField j k with
  | some (.arr items) => items.filterMap (fun x => match x with | .str s => some s | _ => none)
  | _ => []

/-- The endpoint `predict_phishing` given the detection result: a result carrying an
`error` key raises HTTP 422, an uncaught detector exception surfaces as
HTTP 500, otherwise the caller-facing response is assembled. -/
def predict_phishing (result : DetectResult) : Except (ℕ × String) PhishingResponse :=
  match result with
  | .raised msg => .error (500, "Internal server error: " ++ msg)
  | .fetchError _ e _ _ => .error (422, "Analysis failed: " ++ e)
  | .verdict url is_phishing _ combined rep content llm _ =>
    .ok { url := url
          prediction := if is_phishing then 1 else 0
          risk_score := roundTo2 (combined * 100)
          red_flags := predictRedFlags (jsonStrListField llm "content_red_flags")
            (jsonStrListField llm "primary_tactics") content.risk_factors
            rep.reputation_score rep.reputation_reason }

/-! ## Claim C8: fetch failure is terminal and distinct from a verdict -/

/-- Counterexample for C8 as stated: the fetch-failure result does
populate the verdict fields `is_phishing` (False) and `confidence` (0)
alongside its `error` message, rather than leaving all verdict fields
unpopulated. -/
theorem fetch_failure_c8_counterexample :
    errIsPhishing (detect_webpage_phishing "http://example.com" none (.error "timeout")) =
      some false ∧
    errConfidence (detect_webpage_phishing "http://example.com" none (.error "timeout")) =
      some 0 := ⟨rfl, rfl⟩

/-- C8 (amended): whenever the document fetch fails, the pipeline stops
without scoring and returns the explicit error result — the error
message plus defaulted `is_phishing = False`, `confidence = 0`, with no
combined score or analysis components — and the caller layer turns it
into an HTTP 422 "Analysis failed" error rather than any verdict
response, so it cannot be conflated with a low-risk legitimate verdict. -/
theorem fetch_failure_c8 (url : String) (llmResp : Except String String) :
    detect_webpage_phishing url none llmResp =
      .fetchError url "Failed to scrape webpage" false 0 ∧
    predict_phishing (detect_webpage_phishing url none llmResp) =
      .error (422, "Analysis failed: Failed to scrape webpage") :=
  ⟨rfl, rfl⟩

/-! ## Claim C9: the caller-facing red-flag assembly -/

/-- The assembly policy exactly as C9 words it: concatenate the model
red flags, the tactics prefixed `Tactic: `, the rendered heuristic
factors above 0.1 and — when the reputation score is at least 0.8 —
the bare domain-reputation reasons; deduplicate keeping first-seen
order; truncate to 4. -/
def assembleRedFlagsClaim (content_red_flags primary_tactics : List String)
    (risk_factors : List (String × ℚ)) (reputation_score : ℚ)
    (reputation_reason : List String) : List String :=
  (dedupFirst (content_red_flags ++ primary_tactics.map (fun t => "Tactic: " ++ t) ++
    (risk_factors.filter (fun p => 0.1 < p.2)).map
      (fun p => pyTitleCase (replaceUnderscores p.1) ++ ": " ++ formatScore2 p.2) ++
    (if 0.8 ≤ reputation_score then reputation_reason else []))).take 4

/-- Counterexample for C9 as stated: with one suspicious-TLD reason and
nothing else, the code emits `Domain: suspicious_tld`, not the bare
reason the claim describes. -/
theorem red_flags_c9_counterexample :
    predictRedFlags [] [] [] 0.8 ["suspicious_tld"] = ["Domain: suspicious_tld"] ∧
    assembleRedFlagsClaim [] [] [] 0.8 ["suspicious_tld"] = ["suspicious_tld"] ∧
    predictRedFlags [] [] [] 0.8 ["suspicious_tld"] ≠
      assembleRedFlagsClaim [] [] [] 0.8 ["suspicious_tld"] := by
  have h1 : predictRedFlags [] [] [] 0.8 ["suspicious_tld"] = ["Domain: suspicious_tld"] := by
    simp only [predictRedFlags]
    rw [if_pos (le_refl (0.8 : ℚ))]
    rfl
  have h2 : assembleRedFlagsClaim [] [] [] 0.8 ["suspicious_tld"] = ["suspicious_tld"] := by
    simp only [assembleRedFlagsClaim]
    rw [if_pos (le_refl (0.8 : ℚ))]
    rfl
  refine ⟨h1, h2, ?_⟩
  rw [h1, h2]
  decide

/-- C9 (amended): the caller-facing red-flag list equals the claimed
concatenation-deduplicate-truncate pipeline, with the domain-reputation
reasons rendered with the `Domain: ` prefix; it never exceeds 4 entries
and never contains duplicates. -/
theorem red_flags_c9 (content_red_flags primary_tactics : List String)
    (risk_factors : List (String × ℚ)) (reputation_score : ℚ)
    (reputation_reason : List String) :
    predictRedFlags content_red_flags primary_tactics risk_factors
        reputation_score reputation_reason =
      (dedupFirst (content_red_flags ++ primary_tactics.map (fun t => "Tactic: " ++ t) ++
        (risk_factors.filter (fun p => 0.1 < p.2)).map
          (fun p => pyTitleCase (replaceUnderscores p.1) ++ ": " ++ formatScore2 p.2) ++
        (if 0.8 ≤ reputation_score then
          reputation_reason.map (fun r => "Domain: " ++ r) else []))).take 4 ∧
    (predictRedFlags content_red_flags primary_tactics risk_factors
        reputation_score reputation_reason).length ≤ 4 ∧
    (predictRedFlags content_red_flags primary_tactics risk_factors
        reputation_score reputation_reason).Nodup := by
  refine ⟨?_, ?_, ?_⟩
  · simp only [predictRedFlags]
    by_cases h : (0.8 : ℚ) ≤ reputation_score
    · rw [if_pos h, if_pos h]
      simp [List.append_assoc]
    · rw [if_neg h, if_neg h]
      simp [List.append_assoc]
  · simp only [predictRedFlags]
    rw [List.length_take]
    exact min_le_left _ _
  · exact List.Nodup.sublist (List.take_sublist _ _) (dedupFirst_nodup _)
